import Mathlib

/-!
Verification of `src/al1ssc_tools/orbit_tool/orbit_plotter_2D.py`
(class `HeliosphericConstellation`): a shallow embedding over exact
rationals of the constructor (`__init__`) and of `backmapping`, together
with theorems settling the specification claims.

Python floats are modelled as exact rationals; `np.nan` (the `sep` value
when no reference longitude is given) is modelled by `Option ℚ` with
`none` for NaN.  Python exceptions are modelled by `Except PyExc`.
-/

namespace AL1SSC

/-- The Python exceptions that can arise in `HeliosphericConstellation.__init__`
and `backmapping`:
* `valueError` — raised by `get_horizons_coord` when a body has no ephemeris
  (the only exception caught by the per-body `except ValueError`);
* `otherError` — any other exception raised by an ephemeris lookup;
* `doesNotExist` — raised by `Body.objects.get(name=...)` for an unknown
  body name (Django `DoesNotExist`, not a `ValueError`);
* `indexError` — raised by `vsw_list[i]` when `i` is out of range;
* `zeroDivisionError` — raised by `dist * AU / vsw` in `backmapping` when
  `vsw` is a zero scalar;
* `emptyMax` — raised by `np.max(body_dist_list)` on an empty list
  (in Python a `ValueError`: "zero-size array to reduction operation";
  it occurs after the loop, where nothing catches it, so it is modelled
  as its own constructor);
* `invalidParameter` — the `InvalidParameterError` of the specification's
  error taxonomy; no code path of the source ever raises it. -/
inductive PyExc where
  | valueError
  | otherError
  | doesNotExist
  | indexError
  | zeroDivisionError
  | emptyMax
  | invalidParameter
deriving DecidableEq

/-- A Carrington-frame position as returned by `get_horizons_coord(...)`
followed by `transform_to(frames.HeliographicCarrington(observer="Sun"))`:
`(lon, lat, radius)` in `(deg, deg, AU)`.  The ephemeris provider is
modelled as returning the already-transformed coordinates. -/
structure Position where
  lon : ℚ
  lat : ℚ
  radius : ℚ
deriving DecidableEq

/-- A record of the `Body` catalog (`Body.objects.get(name=...)`):
`body.body_id`, `body.name`, `body.color`. -/
structure BodyRec where
  body_id : ℤ
  name : String
  color : String
deriving DecidableEq

/-- `const.au.value / 1000` — the astronomical unit in km
(`const.au.value = 1.495978707e11` m, the exact IAU value). -/
def AU : ℚ := 1495978707 / 10

/-- The solar rotation rate in degrees per second:
`360.0 / (25.38 * 24 * 60 * 60)` (sidereal period).  The source stores
`omega = math.radians(omegaDeg)` in rad/s and later takes
`alpha = math.degrees(omega * tt)`; over the reals
`math.degrees(math.radians(x) * tt) = x * tt` exactly, so the embedding
works with the degree-valued rate and the factors of pi cancel. -/
def omegaDeg : ℚ := 360 / (2538 / 100 * 24 * 60 * 60)

/-- The separation wrap of `backmapping` (source lines 202-208):
`sep = (lon + alpha) - reference_long`, then `sep = sep - 360` if
`sep > 180`, then `sep = 360 - abs(sep)` if (the updated) `sep < -180`. -/
def bmSep (lon alpha ref : ℚ) : ℚ :=
  let sep := lon + alpha - ref
  let sep := if sep > 180 then sep - 360 else sep
  if sep < -180 then 360 - |sep| else sep

/-- `HeliosphericConstellation.backmapping(body_pos, date, reference_long, vsw)`
(source lines 168-212).  Returns `(sep, alpha)`; `sep` is `none` for
`np.nan` when `reference_long is None`.  The `date` argument is accepted
and, exactly as in the source, never read.  A zero `vsw` raises
`ZeroDivisionError` at `tt = dist * AU / vsw` (Python float division by a
zero scalar). -/
def backmapping (body_pos : Position) (date : String) (reference_long : Option ℚ)
    (vsw : ℚ) : Except PyExc (Option ℚ × ℚ) :=
  let _ := date
  let lon := body_pos.lon
  let dist := body_pos.radius
  if vsw = 0 then Except.error PyExc.zeroDivisionError
  else
    let tt := dist * AU / vsw
    let alpha := omegaDeg * tt
    match reference_long with
    | some ref => Except.ok (some (bmSep lon alpha ref), alpha)
    | none => Except.ok (none, alpha)

/-- The Earth-relative longitudinal separation of the aggregator
(source lines 96-98): `longsep_E = pos.lon.value - self.pos_E.lon.value`,
then `longsep_E = longsep_E - 360.0` if `longsep_E > 180`.  There is no
branch for `longsep_E < -180`. -/
def longsepEarth (lon elon : ℚ) : ℚ :=
  let s := lon - elon
  if s > 180 then s - 360 else s

/-- The body-vs-reference-longitude separation of the aggregator
(source lines 121-123): `long_sep = pos.lon.value - self.reference_long`,
then `long_sep = long_sep - 360.0` if `long_sep > 180`.  There is no
branch for `long_sep < -180`. -/
def longsepRef (lon ref : ℚ) : ℚ :=
  let s := lon - ref
  if s > 180 then s - 360 else s

/-- The magnetic-footpoint-longitude wrap of the aggregator
(source lines 114-116): `body_footp_long = pos.lon.value + alpha`, then
`body_footp_long = body_footp_long - 360` if `body_footp_long > 360`. -/
def footpWrap (lon alpha : ℚ) : ℚ :=
  let f := lon + alpha
  if f > 360 then f - 360 else f

/-- A completed value of `bodies_dict[body_name]`: after the appends of a
successful iteration the list holds
`[body.body_id, body.name, body.color, pos, vsw_list[i], sep]`
(when a reference longitude is given, `sep` is appended a second time at
source line 120; the duplicate carries no extra information and is not
modelled). -/
structure Entry where
  body_id : ℤ
  name : String
  color : String
  pos : Position
  vsw : ℚ
  sep : Option ℚ
deriving DecidableEq

/-- Insertion-ordered Python dict assignment `d[k] = v`: replaces the value
in place if `k` is already a key, else appends at the end. -/
def dictInsert (d : List (String × Entry)) (k : String) (v : Entry) :
    List (String × Entry) :=
  if d.any (fun p => p.1 == k) then
    d.map (fun p => if p.1 == k then (k, v) else p)
  else d ++ [(k, v)]

/-- Python dict deletion `del d[k]`. -/
def dictDelete (d : List (String × Entry)) (k : String) :
    List (String × Entry) :=
  d.filter (fun p => !(p.1 == k))

/-- The accumulator lists of `__init__` (source lines 70-80), plus the
dict being built. -/
structure LoopState where
  bodies_dict : List (String × Entry)
  body_lon_list : List ℚ
  body_lat_list : List ℚ
  body_dist_list : List ℚ
  longsep_E_list : List ℚ
  latsep_E_list : List ℚ
  body_vsw_list : List ℚ
  footp_long_list : List ℚ
  longsep_list : List ℚ
  latsep_list : List ℚ
  footp_longsep_list : List (Option ℚ)
deriving DecidableEq

/-- The state before the body loop: every accumulator empty. -/
def emptyState : LoopState :=
  ⟨[], [], [], [], [], [], [], [], [], [], []⟩

/-- One iteration of the body loop of `__init__` (source lines 82-139) for
`(i, body_name)`:
1. `Body.objects.get(name=body_name)` — an unknown name raises
   (`doesNotExist`) and aborts the run (the lookup is outside the `try`);
2. `get_horizons_coord(body.body_id, date, "id")` — a `ValueError` is
   caught by the `except ValueError` handler, which prints a diagnostic
   and executes `del bodies_dict[body_name]` (removing the entry inserted
   at line 84, so the net effect on the dict is deletion of any entry
   under that key); any other exception propagates;
3. `vsw_list[i]` (line 94) — out of range raises `indexError`;
4. the separations, `backmapping`, the footpoint longitude and the
   optional reference-separation lists. -/
def initStep (catalog : String → Option BodyRec)
    (ephem : ℤ → String → Except PyExc Position)
    (pos_E : Position) (date : String)
    (reference_long reference_lat : Option ℚ) (vswL : List ℚ)
    (st : LoopState) (i : ℕ) (body_name : String) :
    Except PyExc LoopState :=
  match catalog body_name with
  | none => Except.error PyExc.doesNotExist
  | some body =>
    match ephem body.body_id date with
    | Except.error PyExc.valueError =>
        Except.ok { st with bodies_dict := dictDelete st.bodies_dict body_name }
    | Except.error e => Except.error e
    | Except.ok pos =>
      match vswL.get? i with
      | none => Except.error PyExc.indexError
      | some vsw =>
        let longsep_E := longsepEarth pos.lon pos_E.lon
        let latsep_E := pos.lat - pos_E.lat
        match backmapping pos date reference_long vsw with
        | Except.error e => Except.error e
        | Except.ok (sep, alpha) =>
          let body_footp_long := footpWrap pos.lon alpha
          let entry : Entry :=
            ⟨body.body_id, body.name, body.color, pos, vsw, sep⟩
          let st := { st with
            bodies_dict := dictInsert st.bodies_dict body_name entry,
            body_lon_list := st.body_lon_list ++ [pos.lon],
            body_lat_list := st.body_lat_list ++ [pos.lat],
            body_dist_list := st.body_dist_list ++ [pos.radius],
            longsep_E_list := st.longsep_E_list ++ [longsep_E],
            latsep_E_list := st.latsep_E_list ++ [latsep_E],
            body_vsw_list := st.body_vsw_list ++ [vsw],
            footp_long_list := st.footp_long_list ++ [body_footp_long] }
          let st :=
            match reference_long with
            | some rl => { st with
                longsep_list := st.longsep_list ++ [longsepRef pos.lon rl],
                footp_longsep_list := st.footp_longsep_list ++ [sep] }
            | none => st
          let st :=
            match reference_lat with
            | some rl =>
                { st with latsep_list := st.latsep_list ++ [pos.lat - rl] }
            | none => st
          Except.ok st

/-- The body loop of `__init__`, over the enumerated body list. -/
def initLoop (catalog : String → Option BodyRec)
    (ephem : ℤ → String → Except PyExc Position)
    (pos_E : Position) (date : String)
    (reference_long reference_lat : Option ℚ) (vswL : List ℚ) :
    List (ℕ × String) → LoopState → Except PyExc LoopState
  | [], st => Except.ok st
  | (i, n) :: rest, st =>
    match initStep catalog ephem pos_E date reference_long reference_lat
        vswL st i n with
    | Except.error e => Except.error e
    | Except.ok st' =>
        initLoop catalog ephem pos_E date reference_long reference_lat
          vswL rest st'

/-- `np.max` over a list: raises a `ValueError` ("zero-size array to
reduction operation maximum") on the empty list, modelled as `emptyMax`. -/
def npMax : List ℚ → Except PyExc ℚ
  | [] => Except.error PyExc.emptyMax
  | x :: xs => Except.ok (xs.foldl max x)

/-- The completed `HeliosphericConstellation` object: the fields set by
`__init__` that survive the constructor (the `coord_table` is a rounded
presentation of the accumulator lists and is not modelled separately). -/
structure Constellation where
  date : String
  reference_long : Option ℚ
  reference_lat : Option ℚ
  pos_E : Position
  body_dict : List (String × Entry)
  max_dist : ℚ
  lists : LoopState
deriving DecidableEq

/-- `HeliosphericConstellation.__init__(date, body_list, vsw_list,
reference_long, reference_lat)` (source lines 48-166):
* Earth's position is `get_horizons_coord(399, date, "id")` through the
  same provider — failure propagates (fatal);
* `if len(vsw_list) == 0: vsw_list = np.zeros(len(body_list)) + 400`;
* the body loop;
* `self.max_dist = np.max(body_dist_list)`. -/
def hcInit (catalog : String → Option BodyRec)
    (ephem : ℤ → String → Except PyExc Position)
    (date : String) (body_list : List String) (vsw_list : List ℚ)
    (reference_long reference_lat : Option ℚ) :
    Except PyExc Constellation :=
  match ephem 399 date with
  | Except.error e => Except.error e
  | Except.ok pos_E =>
    let vswL :=
      if vsw_list.length = 0 then List.replicate body_list.length (400 : ℚ)
      else vsw_list
    match initLoop catalog ephem pos_E date reference_long reference_lat
        vswL body_list.enum emptyState with
    | Except.error e => Except.error e
    | Except.ok st =>
      match npMax st.body_dist_list with
      | Except.error e => Except.error e
      | Except.ok m =>
        Except.ok ⟨date, reference_long, reference_lat, pos_E,
          st.bodies_dict, m, st⟩

/-- Projection of a constructor result, with an inert dummy value in the
error case (used only to state concrete evaluations). -/
def constOf (r : Except PyExc Constellation) : Constellation :=
  match r with
  | Except.ok c => c
  | Except.error _ => ⟨"", none, none, ⟨0, 0, 0⟩, [], 0, emptyState⟩

/-- The `alpha` component of a `backmapping` result (0 in the error case;
used only to state concrete evaluations and monotonicity). -/
def alphaOf (r : Except PyExc (Option ℚ × ℚ)) : ℚ :=
  match r with
  | Except.ok (_, a) => a
  | Except.error _ => 0

/-- A concrete body catalog for the evaluation scenarios: every name is
known, with `body_id = 5`. -/
def catDemo : String → Option BodyRec := fun n => some ⟨5, n, "k"⟩

/-- A catalog with two distinct ids: `"A" ↦ 5`, anything else `↦ 6`. -/
def catTwo : String → Option BodyRec :=
  fun n => if n = "A" then some ⟨5, "A", "k"⟩ else some ⟨6, n, "k"⟩

/-- An ephemeris scenario: Earth (id 399) at Carrington longitude 350,
any other body at longitude 10, both at 1 AU. -/
def ephemWrapDemo : ℤ → String → Except PyExc Position :=
  fun i _ => if i = 399 then Except.ok ⟨350, 0, 1⟩ else Except.ok ⟨10, 0, 1⟩

/-- An ephemeris scenario: Earth at longitude 0, any other body at
longitude 350, both at 1 AU. -/
def ephemFootDemo : ℤ → String → Except PyExc Position :=
  fun i _ => if i = 399 then Except.ok ⟨0, 0, 1⟩ else Except.ok ⟨350, 0, 1⟩

/-- An ephemeris scenario: Earth at the origin longitude, any other body
at longitude 100 and distance 2 AU. -/
def ephemOkDemo : ℤ → String → Except PyExc Position :=
  fun i _ => if i = 399 then Except.ok ⟨0, 0, 1⟩ else Except.ok ⟨100, 0, 2⟩

/-- An ephemeris scenario in which every body except Earth has no
ephemeris (`ValueError`). -/
def ephemAllFail : ℤ → String → Except PyExc Position :=
  fun i _ =>
    if i = 399 then Except.ok ⟨0, 0, 1⟩ else Except.error PyExc.valueError

/-- An ephemeris scenario in which exactly the body with id 5 has no
ephemeris; every other body resolves to longitude 100, distance 2 AU. -/
def ephemOneFail : ℤ → String → Except PyExc Position :=
  fun i _ =>
    if i = 399 then Except.ok ⟨0, 0, 1⟩
    else if i = 5 then Except.error PyExc.valueError
    else Except.ok ⟨100, 0, 2⟩

/-- The entry produced for body "X" in the `catDemo`/`ephemOkDemo`
scenario with the default wind speed and no reference longitude. -/
def demoEntry : Entry := ⟨5, "X", "k", ⟨100, 0, 2⟩, 400, none⟩

/-- The constellation produced by
`hcInit catDemo ephemOkDemo "2020-01-01" ["X"] [] none none`. -/
def demoConstellation : Constellation :=
  ⟨"2020-01-01", none, none, ⟨0, 0, 1⟩, [("X", demoEntry)], 2,
    ⟨[("X", demoEntry)], [100], [0], [2], [100], [0], [400],
      [904739569 / 4060800], [], [], []⟩⟩

/-- The position every resolvable body has in the `ephemOneFail`
scenario. -/
def posOfDemo : String → Position := fun _ => ⟨100, 0, 2⟩

end AL1SSC

namespace AL1SSC


/-! ### Helper lemmas about the dict operations and the loop -/

theorem dictDelete_of_fresh {d : List (String × Entry)} {k : String}
    (h : ∀ q ∈ d, q.1 ≠ k) : dictDelete d k = d := by
  unfold dictDelete
  apply List.filter_eq_self.2
  intro q hq
  simpa using h q hq

theorem dictInsert_of_fresh {d : List (String × Entry)} {k : String}
    {v : Entry} (h : ∀ q ∈ d, q.1 ≠ k) : dictInsert d k v = d ++ [(k, v)] := by
  unfold dictInsert
  rw [if_neg]
  simp only [List.any_eq_true, beq_iff_eq, not_exists, not_and]
  exact fun q hq => h q hq

theorem mem_dictInsert {d : List (String × Entry)} {k : String} {v : Entry}
    {p : String × Entry} (hp : p ∈ dictInsert d k v) : p ∈ d ∨ p = (k, v) := by
  unfold dictInsert at hp
  split at hp
  · rcases List.mem_map.1 hp with ⟨q, hq, he⟩
    by_cases hqk : (q.1 == k) = true
    · rw [if_pos hqk] at he
      exact Or.inr he.symm
    · rw [if_neg hqk] at he
      exact Or.inl (he ▸ hq)
  · rcases List.mem_append.1 hp with h | h
    · exact Or.inl h
    · exact Or.inr (by simpa using h)

theorem mem_dictDelete {d : List (String × Entry)} {k : String}
    {p : String × Entry} (hp : p ∈ dictDelete d k) : p ∈ d :=
  (List.mem_filter.1 hp).1

theorem mem_enum_facts {l : List String} {p : ℕ × String} (hp : p ∈ l.enum) :
    p.1 < l.length ∧ p.2 ∈ l := by
  have h := List.mem_enum_iff_get?.1 hp
  exact ⟨(List.get?_eq_some.1 h).1, List.get?_mem h⟩

theorem initStep_bad (catalog : String → Option BodyRec)
    (ephem : ℤ → String → Except PyExc Position) (pos_E : Position)
    (date : String) (rl rlat : Option ℚ) (vswL : List ℚ) (st : LoopState)
    (i : ℕ) (n : String) (br : BodyRec)
    (hbr : catalog n = some br)
    (heph : ephem br.body_id date = Except.error PyExc.valueError) :
    initStep catalog ephem pos_E date rl rlat vswL st i n
      = Except.ok { st with bodies_dict := dictDelete st.bodies_dict n } := by
  simp only [initStep, hbr, heph]

theorem initStep_good (catalog : String → Option BodyRec)
    (ephem : ℤ → String → Except PyExc Position) (pos_E : Position)
    (date : String) (rl rlat : Option ℚ) (vswL : List ℚ) (st : LoopState)
    (i : ℕ) (n : String) (br : BodyRec) (pos : Position) (v : ℚ)
    (hbr : catalog n = some br)
    (heph : ephem br.body_id date = Except.ok pos)
    (hv : vswL.get? i = some v) (hv0 : v ≠ 0) :
    ∃ st' s,
      initStep catalog ephem pos_E date rl rlat vswL st i n
        = Except.ok st' ∧
      st'.bodies_dict
        = dictInsert st.bodies_dict n ⟨br.body_id, br.name, br.color, pos, v, s⟩ ∧
      st'.body_dist_list = st.body_dist_list ++ [pos.radius] ∧
      st'.body_vsw_list = st.body_vsw_list ++ [v] := by
  cases rl with
  | none =>
    cases rlat with
    | none =>
      simp only [initStep, hbr, heph, hv, backmapping, if_neg hv0]
      exact ⟨_, _, rfl, rfl, rfl, rfl⟩
    | some rla =>
      simp only [initStep, hbr, heph, hv, backmapping, if_neg hv0]
      exact ⟨_, _, rfl, rfl, rfl, rfl⟩
  | some r =>
    cases rlat with
    | none =>
      simp only [initStep, hbr, heph, hv, backmapping, if_neg hv0]
      exact ⟨_, _, rfl, rfl, rfl, rfl⟩
    | some rla =>
      simp only [initStep, hbr, heph, hv, backmapping, if_neg hv0]
      exact ⟨_, _, rfl, rfl, rfl, rfl⟩

theorem initLoop_all_bad (catalog : String → Option BodyRec)
    (ephem : ℤ → String → Except PyExc Position) (pos_E : Position)
    (date : String) (rl rlat : Option ℚ) (vswL : List ℚ) :
    ∀ (pairs : List (ℕ × String)) (st : LoopState),
      (∀ p ∈ pairs, ∃ br, catalog p.2 = some br ∧
          ephem br.body_id date = Except.error PyExc.valueError) →
      (∀ p ∈ pairs, ∀ q ∈ st.bodies_dict, q.1 ≠ p.2) →
      initLoop catalog ephem pos_E date rl rlat vswL pairs st
        = Except.ok st := by
  intro pairs
  induction pairs with
  | nil => intro st _ _; rfl
  | cons pr rest ih =>
    intro st hbad hfresh
    obtain ⟨i, n⟩ := pr
    obtain ⟨br, hbr, heph⟩ := hbad (i, n) (List.mem_cons_self _ _)
    have hstep := initStep_bad catalog ephem pos_E date rl rlat vswL st
      i n br hbr heph
    rw [dictDelete_of_fresh
      (fun q hq => hfresh (i, n) (List.mem_cons_self _ _) q hq)] at hstep
    simp only [initLoop, hstep]
    exact ih st (fun p h => hbad p (List.mem_cons_of_mem _ h))
      (fun p h => hfresh p (List.mem_cons_of_mem _ h))

theorem initLoop_ok_resolves (catalog : String → Option BodyRec)
    (ephem : ℤ → String → Except PyExc Position) (pos_E : Position)
    (date : String) (rl rlat : Option ℚ) (vswL : List ℚ) :
    ∀ (pairs : List (ℕ × String)) (st st' : LoopState),
      initLoop catalog ephem pos_E date rl rlat vswL pairs st
        = Except.ok st' →
      ∀ p ∈ pairs, ∃ br, catalog p.2 = some br ∧
        ((∃ q, ephem br.body_id date = Except.ok q) ∨
          ephem br.body_id date = Except.error PyExc.valueError) := by
  intro pairs
  induction pairs with
  | nil => intro st st' _ p hp; cases hp
  | cons pr rest ih =>
    intro st st' hok p hp
    obtain ⟨i, n⟩ := pr
    simp only [initLoop] at hok
    rcases hstep : initStep catalog ephem pos_E date rl rlat vswL st i n
      with e | st1
    · rw [hstep] at hok; cases hok
    · rw [hstep] at hok
      rcases List.mem_cons.1 hp with heq | hmem
      · subst heq
        cases hbr : catalog n with
        | none =>
          simp only [initStep, hbr] at hstep
          cases hstep
        | some br =>
          refine ⟨br, rfl, ?_⟩
          cases heph : ephem br.body_id date with
          | ok q => exact Or.inl ⟨q, rfl⟩
          | error e =>
            cases e
            case valueError => exact Or.inr rfl
            all_goals
              simp only [initStep, hbr, heph] at hstep
              cases hstep
      · exact ih st1 st' hok p hmem

theorem initLoop_partition (catalog : String → Option BodyRec)
    (ephem : ℤ → String → Except PyExc Position) (pos_E : Position)
    (date : String) (rl rlat : Option ℚ) (vswL : List ℚ)
    (isGood : String → Bool) (posOf : String → Position) :
    ∀ (pairs : List (ℕ × String)) (st : LoopState),
      (pairs.map Prod.snd).Nodup →
      (∀ p ∈ pairs, ∀ q ∈ st.bodies_dict, q.1 ≠ p.2) →
      (∀ p ∈ pairs, if isGood p.2 then
          (∃ br, catalog p.2 = some br ∧
            ephem br.body_id date = Except.ok (posOf p.2)) ∧
          (∃ v, vswL.get? p.1 = some v ∧ v ≠ 0)
        else
          ∃ br, catalog p.2 = some br ∧
            ephem br.body_id date = Except.error PyExc.valueError) →
      ∃ st', initLoop catalog ephem pos_E date rl rlat vswL pairs st
          = Except.ok st' ∧
        st'.bodies_dict.map Prod.fst
          = st.bodies_dict.map Prod.fst
            ++ (pairs.map Prod.snd).filter isGood ∧
        st'.body_dist_list = st.body_dist_list
          ++ ((pairs.map Prod.snd).filter isGood).map
              (fun n => (posOf n).radius) := by
  intro pairs
  induction pairs with
  | nil => intro st _ _ _; exact ⟨st, rfl, by simp, by simp⟩
  | cons pr rest ih =>
    intro st hnd hfresh hcond
    obtain ⟨i, n⟩ := pr
    have hndr : (rest.map Prod.snd).Nodup := (List.nodup_cons.1 hnd).2
    have hnmem : n ∉ rest.map Prod.snd := (List.nodup_cons.1 hnd).1
    have hfreshn : ∀ q ∈ st.bodies_dict, q.1 ≠ n :=
      fun q hq => hfresh (i, n) (List.mem_cons_self _ _) q hq
    have hp := hcond (i, n) (List.mem_cons_self _ _)
    by_cases hg : isGood n
    · rw [if_pos hg] at hp
      obtain ⟨⟨br, hbr, heph⟩, v, hv, hv0⟩ := hp
      obtain ⟨st1, s, hstep, hdict, hdist, hvswl⟩ :=
        initStep_good catalog ephem pos_E date rl rlat vswL st i n br
          (posOf n) v hbr heph hv hv0
      rw [dictInsert_of_fresh hfreshn] at hdict
      have hfresh1 : ∀ p ∈ rest, ∀ q ∈ st1.bodies_dict, q.1 ≠ p.2 := by
        intro p hpr q hq
        have h1 : q.1 ∈ st1.bodies_dict.map Prod.fst :=
          List.mem_map_of_mem Prod.fst hq
        rw [hdict, List.map_append] at h1
        rcases List.mem_append.1 h1 with h | h
        · rcases List.mem_map.1 h with ⟨q0, hq0, he⟩
          exact he ▸ hfresh p (List.mem_cons_of_mem _ hpr) q0 hq0
        · have hq1 : q.1 = n := by simpa using h
          rw [hq1]
          intro he
          apply hnmem
          rw [he]
          exact List.mem_map_of_mem Prod.snd hpr
      obtain ⟨st', hloop, hd, hl⟩ := ih st1 hndr hfresh1
        (fun p h => hcond p (List.mem_cons_of_mem _ h))
      refine ⟨st', ?_, ?_, ?_⟩
      · simp only [initLoop, hstep]; exact hloop
      · rw [hd, hdict]
        simp [hg]
      · rw [hl, hdist]
        simp [hg]
    · rw [if_neg hg] at hp
      obtain ⟨br, hbr, heph⟩ := hp
      have hstep := initStep_bad catalog ephem pos_E date rl rlat vswL st
        i n br hbr heph
      rw [dictDelete_of_fresh hfreshn] at hstep
      obtain ⟨st', hloop, hd, hl⟩ := ih st hndr
        (fun p h => hfresh p (List.mem_cons_of_mem _ h))
        (fun p h => hcond p (List.mem_cons_of_mem _ h))
      refine ⟨st', ?_, ?_, ?_⟩
      · simp only [initLoop, hstep]; exact hloop
      · rw [hd]; simp [hg]
      · rw [hl]; simp [hg]

theorem initStep_vsw {catalog : String → Option BodyRec}
    {ephem : ℤ → String → Except PyExc Position} {pos_E : Position}
    {date : String} {rl rlat : Option ℚ} {vswL : List ℚ}
    {st st1 : LoopState} {i : ℕ} {n : String}
    (hv : ∀ j v, vswL.get? j = some v → v = 400)
    (hok : initStep catalog ephem pos_E date rl rlat vswL st i n
      = Except.ok st1)
    (h1 : ∀ p ∈ st.bodies_dict, p.2.vsw = 400)
    (h2 : ∀ v ∈ st.body_vsw_list, v = 400) :
    (∀ p ∈ st1.bodies_dict, p.2.vsw = 400) ∧
    (∀ v ∈ st1.body_vsw_list, v = 400) := by
  cases hbr : catalog n with
  | none => simp only [initStep, hbr] at hok; cases hok
  | some br =>
  cases heph : ephem br.body_id date with
  | error e =>
    cases e
    case valueError =>
      rw [initStep_bad catalog ephem pos_E date rl rlat vswL st i n br
        hbr heph] at hok
      cases hok
      exact ⟨fun p hp => h1 p (mem_dictDelete hp), h2⟩
    all_goals simp only [initStep, hbr, heph] at hok; cases hok
  | ok pos =>
    cases hvw : vswL.get? i with
    | none => simp only [initStep, hbr, heph, hvw] at hok; cases hok
    | some v =>
      have hv400 : v = 400 := hv i v hvw
      have hv0 : v ≠ 0 := by rw [hv400]; norm_num
      obtain ⟨st2, s, hstep, hdict, hdist, hvswl⟩ :=
        initStep_good catalog ephem pos_E date rl rlat vswL st i n br
          pos v hbr heph hvw hv0
      rw [hstep] at hok
      cases hok
      constructor
      · intro p hp
        rw [hdict] at hp
        rcases mem_dictInsert hp with h | h
        · exact h1 p h
        · rw [h, hv400]
      · intro w hw
        rw [hvswl] at hw
        rcases List.mem_append.1 hw with h | h
        · exact h2 w h
        · rw [List.mem_singleton.1 h, hv400]

theorem initLoop_vsw (catalog : String → Option BodyRec)
    (ephem : ℤ → String → Except PyExc Position) (pos_E : Position)
    (date : String) (rl rlat : Option ℚ) (vswL : List ℚ)
    (hv : ∀ j v, vswL.get? j = some v → v = 400) :
    ∀ (pairs : List (ℕ × String)) (st st' : LoopState),
      initLoop catalog ephem pos_E date rl rlat vswL pairs st
        = Except.ok st' →
      (∀ p ∈ st.bodies_dict, p.2.vsw = 400) →
      (∀ v ∈ st.body_vsw_list, v = 400) →
      (∀ p ∈ st'.bodies_dict, p.2.vsw = 400) ∧
      (∀ v ∈ st'.body_vsw_list, v = 400) := by
  intro pairs
  induction pairs with
  | nil => intro st st' hok h1 h2; cases hok; exact ⟨h1, h2⟩
  | cons pr rest ih =>
    intro st st' hok h1 h2
    obtain ⟨i, n⟩ := pr
    simp only [initLoop] at hok
    rcases hstep : initStep catalog ephem pos_E date rl rlat vswL st i n
      with e | st1
    · rw [hstep] at hok; cases hok
    · rw [hstep] at hok
      obtain ⟨h1', h2'⟩ := initStep_vsw hv hstep h1 h2
      exact ih st1 st' hok h1' h2'

/-! ## Theorems settling the claims -/

/-- C10: the output of `backmapping` is independent of its `date`
argument — two calls differing only in the date return the identical
`(sep, alpha)` pair, because the parameter is never read. -/
theorem C10_date_independent (pos : Position) (reference_long : Option ℚ)
    (vsw : ℚ) (d1 d2 : String) :
    backmapping pos d1 reference_long vsw
      = backmapping pos d2 reference_long vsw := rfl

/-- C2 counterexample: at radial distance 1 AU and wind speed 400 km/s
the backmapping angle returned by the code lies strictly between 61 and
62 degrees (it is 498659569/8121600 ≈ 61.4°), more than 10 degrees away
from the claimed 9.85°. -/
theorem C2_counterexample :
    61 < alphaOf (backmapping ⟨0, 0, 1⟩ "2020-01-01" none 400) ∧
    alphaOf (backmapping ⟨0, 0, 1⟩ "2020-01-01" none 400) < 62 ∧
    10 < alphaOf (backmapping ⟨0, 0, 1⟩ "2020-01-01" none 400) - 985 / 100 := by
  norm_num [alphaOf, backmapping, omegaDeg, AU]

/-- C2 amended: for a body at 1 AU and wind speed 400 km/s, `backmapping`
returns `alpha = omegaDeg * tt` with travel time `tt = AU/400 ≈ 373,995 s`
(between 373,900 and 374,000) and `alpha ≈ 61.4°` (between 61 and 62),
independent of longitude, latitude and date. -/
theorem C2_alpha_at_one_AU (lon lat : ℚ) (date : String) :
    backmapping ⟨lon, lat, 1⟩ date none 400
      = Except.ok (none, omegaDeg * (1 * AU / 400)) ∧
    373900 < 1 * AU / 400 ∧ 1 * AU / 400 < 374000 ∧
    61 < omegaDeg * (1 * AU / 400) ∧ omegaDeg * (1 * AU / 400) < 62 := by
  refine ⟨?_, by norm_num [AU], by norm_num [AU],
    by norm_num [omegaDeg, AU], by norm_num [omegaDeg, AU]⟩
  norm_num [backmapping]

/-- C1 counterexample: in a run with Earth at Carrington longitude 350
and a body at longitude 10 (both legal provider outputs in [0,360)), the
Earth-relative longitudinal separation stored by the aggregator is -340,
which is not in (-180, 180]: the aggregator's differencing sites lack
the add-360 branch of the claimed symmetric wrap rule. -/
theorem C1_counterexample :
    (constOf (hcInit catDemo ephemWrapDemo "2020-01-01" ["Mars"] [] none
        none)).lists.longsep_E_list = [-340] ∧
    ¬ (-180 < (-340 : ℚ) ∧ (-340 : ℚ) ≤ 180) := by
  refine ⟨?_, by norm_num⟩
  norm_num [constOf, hcInit, initLoop, initStep, backmapping, catDemo,
    ephemWrapDemo, List.enum, List.enumFrom, omegaDeg, AU, longsepEarth,
    footpWrap, dictInsert, emptyState, npMax]

/-- C1 amended: only `backmapping`'s separation applies both wrap
branches (its `360 - abs(sep)` branch equals `sep + 360` on `sep < -180`)
and lands in [-180, 180] for raw differences in (-540, 540] (the value
-180 is attained exactly at a raw difference of -180, since both branch
tests are strict); the two
aggregator sites (Earth-relative and body-vs-reference) apply only the
subtract-360 branch, so for longitudes in [0, 360) their results are
only guaranteed to lie in (-360, 180]. -/
theorem C1_wrap_rule_per_site :
    (∀ lon elon : ℚ, 0 ≤ lon → lon < 360 → 0 ≤ elon → elon < 360 →
      -360 < longsepEarth lon elon ∧ longsepEarth lon elon ≤ 180) ∧
    (∀ lon ref : ℚ, 0 ≤ lon → lon < 360 → 0 ≤ ref → ref < 360 →
      -360 < longsepRef lon ref ∧ longsepRef lon ref ≤ 180) ∧
    (∀ lon alpha ref : ℚ,
      -540 < lon + alpha - ref → lon + alpha - ref ≤ 540 →
      -180 ≤ bmSep lon alpha ref ∧ bmSep lon alpha ref ≤ 180) := by
  refine ⟨?_, ?_, ?_⟩
  · intro lon elon h1 h2 h3 h4
    simp only [longsepEarth]
    split_ifs with h <;> constructor <;> linarith
  · intro lon ref h1 h2 h3 h4
    simp only [longsepRef]
    split_ifs with h <;> constructor <;> linarith
  · intro lon alpha ref h1 h2
    simp only [bmSep]
    split_ifs with ha hb hc
    · rw [abs_of_neg (by linarith)]
      constructor <;> linarith
    · constructor <;> linarith
    · rw [abs_of_neg (by linarith)]
      constructor <;> linarith
    · constructor <;> linarith

/-- Witness for C1_wrap_rule_per_site at concrete inputs. -/
theorem C1_wrap_rule_witness :
    (-360 < longsepEarth 10 350 ∧ longsepEarth 10 350 ≤ 180) ∧
    (-360 < longsepRef 10 350 ∧ longsepRef 10 350 ≤ 180) ∧
    (-180 ≤ bmSep 10 30 350 ∧ bmSep 10 30 350 ≤ 180) :=
  ⟨C1_wrap_rule_per_site.1 10 350 (by norm_num) (by norm_num) (by norm_num)
      (by norm_num),
   C1_wrap_rule_per_site.2.1 10 350 (by norm_num) (by norm_num) (by norm_num)
      (by norm_num),
   C1_wrap_rule_per_site.2.2 10 30 350 (by norm_num) (by norm_num)⟩

/-- C6 counterexample: a body at longitude 350, distance 1 AU with wind
speed 1 km/s gets backmapping angle alpha ≈ 24559°; the footpoint
longitude stored by the aggregator is 498456529/20304 ≈ 24549°, far
outside [0, 360): the single conditional subtraction of 360 does not
wrap `lon + alpha` into [0, 360). -/
theorem C6_counterexample :
    (constOf (hcInit catDemo ephemFootDemo "2020-01-01" ["PSP"] [1] none
        none)).lists.footp_long_list = [498456529 / 20304] ∧
    ¬ ((498456529 : ℚ) / 20304 < 360) := by
  refine ⟨?_, by norm_num⟩
  norm_num [constOf, hcInit, initLoop, initStep, backmapping, catDemo,
    ephemFootDemo, List.enum, List.enumFrom, omegaDeg, AU, longsepEarth,
    footpWrap, dictInsert, emptyState, npMax]

/-- C6 amended: the aggregator stores `lon + alpha`, minus 360 only when
the sum exceeds 360 (a single conditional subtraction); the stored value
is congruent to `lon + alpha` modulo 360 and lies in [0, 360) whenever
`lon + alpha < 720` and `lon + alpha ≠ 360`, but not in general. -/
theorem C6_footpoint_wrap (lon alpha : ℚ) (h0 : 0 ≤ lon) (ha : 0 ≤ alpha)
    (hne : lon + alpha ≠ 360) (hlt : lon + alpha < 720) :
    (footpWrap lon alpha = lon + alpha ∨
      footpWrap lon alpha = lon + alpha - 360) ∧
    0 ≤ footpWrap lon alpha ∧ footpWrap lon alpha < 360 := by
  simp only [footpWrap]
  split_ifs with h
  · exact ⟨Or.inr rfl, by linarith, by linarith⟩
  · refine ⟨Or.inl rfl, by linarith, ?_⟩
    rcases lt_or_eq_of_le (not_lt.1 h : lon + alpha ≤ 360) with h' | h'
    · exact h'
    · exact absurd h' hne

/-- Witness for C6_footpoint_wrap at `lon = 350`, `alpha = 100`. -/
theorem C6_footpoint_wrap_witness :
    (footpWrap 350 100 = 350 + 100 ∨ footpWrap 350 100 = 350 + 100 - 360) ∧
    0 ≤ footpWrap 350 100 ∧ footpWrap 350 100 < 360 :=
  C6_footpoint_wrap 350 100 (by norm_num) (by norm_num) (by norm_num)
    (by norm_num)

/-- C8: the backmapping angle is strictly decreasing in the wind speed at
fixed (positive-distance) position, and strictly increasing in radial
distance at fixed positive wind speed. -/
theorem C8_alpha_monotonic :
    (∀ (lon lat d : ℚ) (date : String) (ref : Option ℚ) (v1 v2 : ℚ),
      0 < d → 0 < v1 → v1 < v2 →
      alphaOf (backmapping ⟨lon, lat, d⟩ date ref v2)
        < alphaOf (backmapping ⟨lon, lat, d⟩ date ref v1)) ∧
    (∀ (lon lat : ℚ) (date : String) (ref : Option ℚ) (d1 d2 v : ℚ),
      0 < v → d1 < d2 →
      alphaOf (backmapping ⟨lon, lat, d1⟩ date ref v)
        < alphaOf (backmapping ⟨lon, lat, d2⟩ date ref v)) := by
  have homega : (0 : ℚ) < omegaDeg := by norm_num [omegaDeg]
  have hAU : (0 : ℚ) < AU := by norm_num [AU]
  constructor
  · intro lon lat d date ref v1 v2 hd hv1 hlt
    have h1 : v1 ≠ 0 := ne_of_gt hv1
    have h2 : v2 ≠ 0 := ne_of_gt (hv1.trans hlt)
    unfold backmapping
    rw [if_neg h1, if_neg h2]
    cases ref with
    | none =>
        simp only [alphaOf]
        rw [mul_div_assoc' omegaDeg, mul_div_assoc' omegaDeg]
        exact div_lt_div_of_pos_left (by positivity) hv1 hlt
    | some r =>
        simp only [alphaOf]
        rw [mul_div_assoc' omegaDeg, mul_div_assoc' omegaDeg]
        exact div_lt_div_of_pos_left (by positivity) hv1 hlt
  · intro lon lat date ref d1 d2 v hv hlt
    have h0 : v ≠ 0 := ne_of_gt hv
    unfold backmapping
    rw [if_neg h0, if_neg h0]
    have key : omegaDeg * (d1 * AU / v) < omegaDeg * (d2 * AU / v) := by
      apply mul_lt_mul_of_pos_left _ homega
      apply div_lt_div_of_pos_right _ hv
      exact mul_lt_mul_of_pos_right hlt hAU
    cases ref with
    | none => simpa only [alphaOf] using key
    | some r => simpa only [alphaOf] using key

/-- Witness for C8_alpha_monotonic: at distance 1 AU, alpha at 500 km/s
is below alpha at 400 km/s; at 400 km/s, alpha at 1 AU is below alpha at
2 AU. -/
theorem C8_alpha_monotonic_witness :
    alphaOf (backmapping ⟨0, 0, 1⟩ "d" none 500)
      < alphaOf (backmapping ⟨0, 0, 1⟩ "d" none 400) ∧
    alphaOf (backmapping ⟨0, 0, 1⟩ "d" none 400)
      < alphaOf (backmapping ⟨0, 0, 2⟩ "d" none 400) :=
  ⟨C8_alpha_monotonic.1 0 0 1 "d" none 400 500 (by norm_num) (by norm_num)
      (by norm_num),
   C8_alpha_monotonic.2 0 0 "d" none 1 2 400 (by norm_num) (by norm_num)⟩

/-- C5 counterexample: with two resolvable bodies and the non-empty but
shorter `vsw_list = [500]`, construction does not default the second
body's wind speed to 400 — it raises `IndexError` at `vsw_list[1]`. -/
theorem C5_counterexample :
    hcInit catDemo ephemOkDemo "2020-01-01" ["A", "B"] [500] none none
      = Except.error PyExc.indexError := by
  norm_num [hcInit, initLoop, initStep, backmapping, catDemo, ephemOkDemo,
    List.enum, List.enumFrom, omegaDeg, AU, longsepEarth, footpWrap,
    dictInsert, emptyState, npMax]

/-- C7 counterexample: a wind speed of 0 is not rejected with an
`InvalidParameterError` before the lookups — the run proceeds and aborts
with an unguarded `ZeroDivisionError` inside `backmapping`; with the same
inputs but a failing ephemeris the outcome changes (to the empty-max
error), showing the lookup is consumed before the failure; an empty body
list likewise is not pre-validated but fails only at the final
`np.max([])`. -/
theorem C7_counterexample :
    hcInit catDemo ephemFootDemo "2020-01-01" ["PSP"] [0] none none
      = Except.error PyExc.zeroDivisionError ∧
    hcInit catDemo ephemAllFail "2020-01-01" ["PSP"] [0] none none
      = Except.error PyExc.emptyMax ∧
    hcInit catDemo ephemFootDemo "2020-01-01" [] [] none none
      = Except.error PyExc.emptyMax ∧
    PyExc.zeroDivisionError ≠ PyExc.invalidParameter := by
  refine ⟨?_, ?_, ?_, by decide⟩ <;>
    norm_num [hcInit, initLoop, initStep, backmapping, catDemo,
      ephemFootDemo, ephemAllFail, List.enum, List.enumFrom, omegaDeg, AU,
      longsepEarth, footpWrap, dictInsert, dictDelete, emptyState, npMax]

/-- C7 amended: the constructor performs no input validation; whenever a
body resolves through catalog and ephemeris and its paired wind speed is
0, the run aborts with `ZeroDivisionError` raised at
`tt = dist * AU / vsw` inside `backmapping`. -/
theorem C7_zero_vsw_divides (catalog : String → Option BodyRec)
    (ephem : ℤ → String → Except PyExc Position) (date n : String)
    (rl rlat : Option ℚ) (br : BodyRec) (pE p : Position)
    (hE : ephem 399 date = Except.ok pE)
    (hc : catalog n = some br)
    (he : ephem br.body_id date = Except.ok p) :
    hcInit catalog ephem date [n] [0] rl rlat
      = Except.error PyExc.zeroDivisionError := by
  simp [hcInit, hE, initLoop, initStep, List.enum, List.enumFrom, hc, he,
    backmapping]

/-- Witness for C7_zero_vsw_divides at a concrete scenario. -/
theorem C7_zero_vsw_divides_witness :
    hcInit catDemo ephemOkDemo "2020-01-01" ["PSP"] [0] none none
      = Except.error PyExc.zeroDivisionError :=
  C7_zero_vsw_divides catDemo ephemOkDemo "2020-01-01" "PSP" none none
    ⟨5, "PSP", "k"⟩ ⟨0, 0, 1⟩ ⟨100, 0, 2⟩ (by norm_num [ephemOkDemo])
    (by norm_num [catDemo]) (by norm_num [ephemOkDemo])


/-- Evaluation of the constructor in the `catDemo`/`ephemOkDemo`
scenario: one body "X", empty `vsw_list`, no reference point. -/
theorem hcInit_demo_eval :
    hcInit catDemo ephemOkDemo "2020-01-01" ["X"] [] none none
      = Except.ok demoConstellation := by
  norm_num [hcInit, initLoop, initStep, backmapping, catDemo, ephemOkDemo,
    List.enum, List.enumFrom, omegaDeg, AU, longsepEarth, footpWrap,
    dictInsert, emptyState, npMax, demoConstellation, demoEntry]

theorem get_replicate_of_lt {N j : ℕ} (h : j < N) :
    (List.replicate N (400 : ℚ)).get? j = some 400 := by
  rw [List.get?_eq_some]
  exact ⟨by simpa using h, by simp⟩

theorem length_filter_ne_of_nodup {l : List String} {bad : String}
    (hnd : l.Nodup) (hbad : bad ∈ l) :
    (l.filter (fun n => !(n == bad))).length = l.length - 1 := by
  induction l with
  | nil => cases hbad
  | cons a t ih =>
    rcases List.mem_cons.1 hbad with heq | hm
    · subst heq
      have hnotin : bad ∉ t := (List.nodup_cons.1 hnd).1
      rw [List.filter_cons_of_neg (by simp)]
      rw [List.filter_eq_self.2 (fun b hb => by
        simp only [Bool.not_eq_true']
        exact beq_eq_false_iff_ne.2 (fun he => hnotin (he ▸ hb)))]
      simp
    · have hane : a ≠ bad := fun he =>
        (List.nodup_cons.1 hnd).1 (he ▸ hm)
      rw [List.filter_cons_of_pos (by simpa using hane)]
      have ht1 : 1 ≤ t.length := List.length_pos.2 (List.ne_nil_of_mem hm)
      have := ih (List.nodup_cons.1 hnd).2 hm
      simp only [List.length_cons, this]
      omega

/-- C3: for a body list (distinct names) in which exactly one body's
ephemeris lookup fails with a `ValueError` and every other body resolves
(and at least one body resolves), construction completes without
raising, the failing body is excluded so the constellation holds
`N - 1` entries, and `max_dist` is the `np.max` over exactly the
resolved bodies' radial distances. -/
theorem C3_one_failure_excluded (catalog : String → Option BodyRec)
    (ephem : ℤ → String → Except PyExc Position) (date : String)
    (l : List String) (bad : String) (posOf : String → Position)
    (rl rlat : Option ℚ) (pE : Position)
    (hE : ephem 399 date = Except.ok pE)
    (hnd : l.Nodup) (hbad : bad ∈ l)
    (hfail : ∃ br, catalog bad = some br ∧
        ephem br.body_id date = Except.error PyExc.valueError)
    (hgood : ∀ n ∈ l, n ≠ bad → ∃ br, catalog n = some br ∧
        ephem br.body_id date = Except.ok (posOf n))
    (hsome : ∃ n ∈ l, n ≠ bad) :
    ∃ c, hcInit catalog ephem date l [] rl rlat = Except.ok c ∧
      c.body_dict.length = l.length - 1 ∧
      npMax ((l.filter (fun n => !(n == bad))).map
          (fun n => (posOf n).radius)) = Except.ok c.max_dist := by
  have hcond : ∀ p ∈ l.enum,
      if (fun n => !(n == bad)) p.2 = true then
        (∃ br, catalog p.2 = some br ∧
          ephem br.body_id date = Except.ok (posOf p.2)) ∧
        (∃ v, (List.replicate l.length (400 : ℚ)).get? p.1 = some v ∧
          v ≠ 0)
      else ∃ br, catalog p.2 = some br ∧
        ephem br.body_id date = Except.error PyExc.valueError := by
    intro p hp
    by_cases hpb : p.2 = bad
    · rw [if_neg (by simp [hpb])]
      exact hpb ▸ hfail
    · rw [if_pos (by simp [hpb])]
      exact ⟨hgood p.2 (mem_enum_facts hp).2 hpb,
        400, get_replicate_of_lt (mem_enum_facts hp).1, by norm_num⟩
  obtain ⟨st, hloop, hkeys, hdist⟩ := initLoop_partition catalog ephem pE
    date rl rlat (List.replicate l.length 400) (fun n => !(n == bad)) posOf
    l.enum emptyState (by rw [List.enum_map_snd]; exact hnd)
    (by simp [emptyState]) hcond
  rw [List.enum_map_snd] at hkeys hdist
  simp only [emptyState, List.nil_append] at hkeys hdist
  rcases hmax : npMax ((l.filter (fun n => !(n == bad))).map
      (fun n => (posOf n).radius)) with e | m
  · exfalso
    obtain ⟨n0, hn0, hn0b⟩ := hsome
    have hmem : n0 ∈ l.filter (fun n => !(n == bad)) :=
      List.mem_filter.2 ⟨hn0, by simp [hn0b]⟩
    rcases hfl : l.filter (fun n => !(n == bad)) with _ | ⟨a, t⟩
    · rw [hfl] at hmem; cases hmem
    · rw [hfl] at hmax
      simp only [List.map_cons, npMax] at hmax
      cases hmax
  · refine ⟨⟨date, rl, rlat, pE, st.bodies_dict, m, st⟩, ?_, ?_, rfl⟩
    · simp only [hcInit, hE, List.length_nil, if_pos]
      simp only [hloop, hdist, hmax]
    · have hlen := congrArg List.length hkeys
      rw [List.length_map] at hlen
      simpa [hlen] using length_filter_ne_of_nodup hnd hbad

/-- Witness for C3_one_failure_excluded: bodies ["A", "B"], where "A"
(id 5) has no ephemeris and "B" (id 6) resolves: the constellation has
exactly one entry and `max_dist` is the maximum over ["B"] alone. -/
theorem C3_one_failure_excluded_witness :
    ∃ c, hcInit catTwo ephemOneFail "2020-01-01" ["A", "B"] [] none none
        = Except.ok c ∧
      c.body_dict.length = (["A", "B"] : List String).length - 1 ∧
      npMax (((["A", "B"] : List String).filter (fun n => !(n == "A"))).map
          (fun n => (posOfDemo n).radius)) = Except.ok c.max_dist :=
  C3_one_failure_excluded catTwo ephemOneFail "2020-01-01" ["A", "B"] "A"
    posOfDemo none none ⟨0, 0, 1⟩ rfl (by decide) (by decide)
    ⟨⟨5, "A", "k"⟩, by norm_num [catTwo], by norm_num [ephemOneFail]⟩
    (fun n hn hne => ⟨⟨6, n, "k"⟩, by simp [catTwo, hne],
      by norm_num [ephemOneFail, posOfDemo]⟩)
    ⟨"B", by decide, by decide⟩

/-- C4: when Earth resolves but every body's ephemeris lookup fails with
a `ValueError`, the constructor reaches `np.max` of an empty distance
list and raises the empty-result error, surfaced to the caller. -/
theorem C4_all_unresolvable (catalog : String → Option BodyRec)
    (ephem : ℤ → String → Except PyExc Position) (date : String)
    (l : List String) (vsw_list : List ℚ) (rl rlat : Option ℚ)
    (pE : Position)
    (hE : ephem 399 date = Except.ok pE)
    (hf : ∀ n ∈ l, ∃ br, catalog n = some br ∧
        ephem br.body_id date = Except.error PyExc.valueError) :
    hcInit catalog ephem date l vsw_list rl rlat
      = Except.error PyExc.emptyMax := by
  have hloop := initLoop_all_bad catalog ephem pE date rl rlat
    (if vsw_list.length = 0 then List.replicate l.length (400 : ℚ)
      else vsw_list)
    l.enum emptyState
    (fun p hp => hf p.2 (mem_enum_facts hp).2)
    (by simp [emptyState])
  simp only [hcInit, hE]
  rw [hloop]
  simp [npMax, emptyState]

/-- Witness for C4_all_unresolvable: two bodies, both without ephemeris. -/
theorem C4_all_unresolvable_witness :
    hcInit catDemo ephemAllFail "2020-01-01" ["X", "Y"] [] none none
      = Except.error PyExc.emptyMax :=
  C4_all_unresolvable catDemo ephemAllFail "2020-01-01" ["X", "Y"] []
    none none ⟨0, 0, 1⟩ rfl
    (fun n _ => ⟨⟨5, n, "k"⟩, rfl, by norm_num [ephemAllFail]⟩)

/-- C5 amended: with an empty `vsw_list`, every body is assigned the
default wind speed 400 km/s — every entry of a completed constellation
carries `vsw = 400` (a non-empty but shorter list instead raises
`IndexError`, see the counterexample). -/
theorem C5_empty_vsw_defaults (catalog : String → Option BodyRec)
    (ephem : ℤ → String → Except PyExc Position) (date : String)
    (l : List String) (rl rlat : Option ℚ) (c : Constellation)
    (hok : hcInit catalog ephem date l [] rl rlat = Except.ok c) :
    (∀ p ∈ c.body_dict, p.2.vsw = 400) ∧
    (∀ v ∈ c.lists.body_vsw_list, v = 400) := by
  rcases hE : ephem 399 date with e | pE
  · simp only [hcInit, hE] at hok
    cases hok
  · simp only [hcInit, hE, List.length_nil, if_pos] at hok
    rcases hloop : initLoop catalog ephem pE date rl rlat
        (List.replicate l.length (400 : ℚ)) l.enum emptyState with e | st
    · simp only [hloop] at hok
      cases hok
    · simp only [hloop] at hok
      rcases hmax : npMax st.body_dist_list with e | m
      · simp only [hmax] at hok
        cases hok
      · simp only [hmax] at hok
        cases hok
        have h := initLoop_vsw catalog ephem pE date rl rlat
          (List.replicate l.length 400)
          (fun j v hv => List.eq_of_mem_replicate (List.get?_mem hv))
          l.enum emptyState st hloop
          (by simp [emptyState]) (by simp [emptyState])
        exact ⟨h.1, h.2⟩

/-- Witness for C5_empty_vsw_defaults at the demo run. -/
theorem C5_empty_vsw_defaults_witness :
    (∀ p ∈ demoConstellation.body_dict, p.2.vsw = 400) ∧
    (∀ v ∈ demoConstellation.lists.body_vsw_list, v = 400) :=
  C5_empty_vsw_defaults catDemo ephemOkDemo "2020-01-01" ["X"] none none
    demoConstellation hcInit_demo_eval

/-- C9: per-body recovery is limited to ephemeris `ValueError`s — if the
constructor completes, then every listed body name was found in the
`Body` catalog (an unknown name raises outside the `try` and aborts the
run) and every ephemeris lookup either returned a position or raised
exactly `ValueError` (any other exception propagates and aborts the
run). -/
theorem C9_only_valueerror_recovered (catalog : String → Option BodyRec)
    (ephem : ℤ → String → Except PyExc Position) (date : String)
    (l : List String) (vsw_list : List ℚ) (rl rlat : Option ℚ)
    (c : Constellation)
    (hok : hcInit catalog ephem date l vsw_list rl rlat = Except.ok c) :
    ∀ n ∈ l, ∃ br, catalog n = some br ∧
      ((∃ p, ephem br.body_id date = Except.ok p) ∨
        ephem br.body_id date = Except.error PyExc.valueError) := by
  intro n hn
  rcases hE : ephem 399 date with e | pE
  · simp only [hcInit, hE] at hok
    cases hok
  · simp only [hcInit, hE] at hok
    rcases hloop : initLoop catalog ephem pE date rl rlat
        (if vsw_list.length = 0 then List.replicate l.length (400 : ℚ)
          else vsw_list) l.enum emptyState with e | st
    · rw [hloop] at hok
      cases hok
    · have hres := initLoop_ok_resolves catalog ephem pE date rl rlat _
        l.enum emptyState st hloop
      have hnn : n ∈ l.enum.map Prod.snd := by
        rw [List.enum_map_snd]; exact hn
      rcases List.mem_map.1 hnn with ⟨p, hp, hpe⟩
      exact hpe ▸ hres p hp

/-- Witness for C9_only_valueerror_recovered at the demo run,
specialized to the body "X". -/
theorem C9_only_valueerror_recovered_witness :
    ∃ br, catDemo "X" = some br ∧
      ((∃ p, ephemOkDemo br.body_id "2020-01-01" = Except.ok p) ∨
        ephemOkDemo br.body_id "2020-01-01"
          = Except.error PyExc.valueError) :=
  C9_only_valueerror_recovered catDemo ephemOkDemo "2020-01-01" ["X"] []
    none none demoConstellation hcInit_demo_eval "X" (by simp)

end AL1SSC
